import Mathlib

/-!
Shallow embedding of the SignifyLearn backend (`main.py`, `schemas.py`).

The service is a set of HTTP handlers over six document collections
(`gesture`, `module`, `quizquestion`, `favorite`, `user`, `progress`).
Documents are modelled as structures whose fields are `Option` wherever the
handlers read them with a `.get(key, default)` fallback; fields the handlers
read without a fallback (and which would make the response model fail if
absent) are required.  The process-wide handle `db` (which may be `None`)
is modelled as `Option DB`.  Handlers are pure functions; the two mutating
handlers and the lazily-creating profile handler return the updated store.
-/

namespace SignifyLearn

/-- A stored `gesture` document (shape of the seed data / `Gesture` schema).
`name`, `slug`, `category` are read without defaults by the handlers;
the remaining fields are read with `.get(key, default)`. -/
structure GestureDoc where
  name : String
  slug : String
  category : String
  difficulty : Option String
  thumbnail : Option String
  video_url : Option String
  steps : Option (List String)
  examples : Option (List String)
  tags : Option (List String)
deriving DecidableEq, Repr

/-- A stored `module` document. -/
structure ModuleDoc where
  title : String
  slug : String
  summary : Option String
  cover : Option String
  lessons : Option (List String)
  difficulty : Option String
deriving DecidableEq, Repr

/-- A stored `quizquestion` document; `options` and `answer_index` are read
with defaults `[]` and `0` by `get_quiz`. -/
structure QuizDoc where
  module_slug : String
  prompt : String
  media : Option String
  options : Option (List String)
  answer_index : Option Int
deriving DecidableEq, Repr

/-- A stored `favorite` document: the composite pair. -/
structure FavoriteDoc where
  user_email : String
  gesture_slug : String
deriving DecidableEq, Repr

/-- A stored `user` document; `get_profile` reads every field except `email`
with a default. -/
structure UserDoc where
  name : Option String
  email : String
  avatar : Option String
  points : Option Int
  level : Option Int
  streak : Option Int
  badges : Option (List String)
deriving DecidableEq, Repr

/-- A stored `progress` document; `completed_lessons` is read with default
`[]`; `updated_at` exists in the `Progress` schema but is never touched by
`main.py` (kept abstract as a string timestamp). -/
structure ProgressDoc where
  user_email : String
  module_slug : String
  completed_lessons : Option (List Int)
  updated_at : Option String
deriving DecidableEq, Repr

/-- The document store: six collections, each a list of documents in
insertion order.  A collection that is absent in MongoDB is indistinguishable
from an empty one through the operations `main.py` performs (the seed check
`name not in list_collection_names() or count_documents({}) == 0` collapses
to "the list is empty"). -/
structure DB where
  gesture : List GestureDoc
  module : List ModuleDoc
  quizquestion : List QuizDoc
  favorite : List FavoriteDoc
  user : List UserDoc
  progress : List ProgressDoc
deriving DecidableEq, Repr

/-- The store with every collection empty. -/
def emptyDB : DB := ⟨[], [], [], [], [], []⟩

-- ------------------------------------------------------------------
-- Seed data (`ensure_seed_data` in `main.py`)
-- ------------------------------------------------------------------

/-- The three hardcoded gesture records of `ensure_seed_data`. -/
def seedGestures : List GestureDoc :=
  [ { name := "A", slug := "a", category := "A-Z",
      difficulty := some "Pemula", thumbnail := some "/gestures/a.png",
      video_url := some "https://videos.example.com/a.mp4",
      steps := some ["Angkat tangan kanan", "Bentuk huruf A"],
      examples := some ["Nama saya"],
      tags := some ["alphabet", "basic"] },
    { name := "B", slug := "b", category := "A-Z",
      difficulty := some "Pemula", thumbnail := some "/gestures/b.png",
      video_url := some "https://videos.example.com/b.mp4",
      steps := some ["Angkat tangan", "Bentuk huruf B"],
      examples := some ["Belajar"],
      tags := some ["alphabet", "basic"] },
    { name := "Terima Kasih", slug := "terima-kasih", category := "Kata Dasar",
      difficulty := some "Pemula", thumbnail := some "/gestures/terima-kasih.png",
      video_url := some "https://videos.example.com/thanks.mp4",
      steps := some ["Sentuh dagu", "Gerakkan tangan menjauh"],
      examples := some ["Terima kasih atas bantuanmu"],
      tags := some ["basic", "courtesy"] } ]

/-- The two hardcoded module records of `ensure_seed_data`. -/
def seedModules : List ModuleDoc :=
  [ { title := "Dasar-Dasar Bahasa Isyarat", slug := "dasar-dasar",
      summary := some "Mulai dari alfabet, angka, dan salam",
      cover := some "/covers/basic.png",
      lessons := some ["Alfabet", "Angka", "Salam"],
      difficulty := some "Pemula" },
    { title := "Ekspresi Emosi", slug := "ekspresi-emosi",
      summary := some "Bahasa isyarat untuk emosi umum",
      cover := some "/covers/emotion.png",
      lessons := some ["Senang", "Sedih", "Marah"],
      difficulty := some "Menengah" } ]

/-- The single hardcoded quiz record of `ensure_seed_data`. -/
def seedQuizzes : List QuizDoc :=
  [ { module_slug := "dasar-dasar",
      prompt := "Gestur mana yang berarti \x27Terima Kasih\x27?",
      media := none,
      options := some ["Sentuh dagu lalu jauhkan tangan", "Kepal tangan",
                       "Telapak ke atas"],
      answer_index := some 0 } ]

/-- One run of the seeding body on an available store: for each of the three
read-only collections, bulk-insert the fixed batch when the collection is
empty (in MongoDB: absent or with zero documents), otherwise leave it alone. -/
def seedStep (d : DB) : DB :=
  let d1 := if d.gesture.isEmpty then { d with gesture := d.gesture ++ seedGestures } else d
  let d2 := if d1.module.isEmpty then { d1 with module := d1.module ++ seedModules } else d1
  if d2.quizquestion.isEmpty then
    { d2 with quizquestion := d2.quizquestion ++ seedQuizzes } else d2

/-- `ensure_seed_data`: returns immediately when `db is None`, otherwise runs
the seeding body. -/
def ensure_seed_data (db : Option DB) : Option DB :=
  match db with
  | none => none
  | some d => some (seedStep d)

/-- The store produced by seeding the empty store. -/
def seededDB : DB :=
  { emptyDB with gesture := seedGestures, module := seedModules,
                 quizquestion := seedQuizzes }

-- ------------------------------------------------------------------
-- Response shapes (FastAPI response models in `main.py`)
-- ------------------------------------------------------------------

/-- `GestureOut`: the summary projection returned by `list_gestures`. -/
structure GestureOut where
  name : String
  slug : String
  category : String
  difficulty : String
  thumbnail : Option String
deriving DecidableEq, Repr

/-- `GestureDetail`: the full projection returned by `get_gesture`. -/
structure GestureDetail where
  name : String
  slug : String
  category : String
  difficulty : String
  thumbnail : Option String
  video_url : Option String
  steps : List String
  examples : List String
  tags : List String
deriving DecidableEq, Repr

/-- `ModuleOut`: the summary projection returned by `list_modules`. -/
structure ModuleOut where
  title : String
  slug : String
  summary : Option String
  cover : Option String
  difficulty : String
deriving DecidableEq, Repr

/-- `ModuleDetail`: the full projection returned by `get_module`. -/
structure ModuleDetail where
  title : String
  slug : String
  summary : Option String
  cover : Option String
  lessons : List String
  difficulty : String
deriving DecidableEq, Repr

/-- `QuizQuestion` response shape returned by `get_quiz`. -/
structure QuizOut where
  module_slug : String
  prompt : String
  media : Option String
  options : List String
  answer_index : Int
deriving DecidableEq, Repr

/-- `UserProfile` response shape returned by `get_profile`. -/
structure UserProfileOut where
  name : String
  email : String
  avatar : Option String
  points : Int
  level : Int
  streak : Int
  badges : List String
deriving DecidableEq, Repr

/-- The error a handler can surface: `HTTPException(404, detail)` for both
miss and unavailable-store single-entity reads, or the unhandled Python
exception (HTTP 500) that `get_profile` would raise if the re-read after its
lazy insert came back empty. -/
inductive ApiError where
  | notFound (detail : String)
  | internalError
deriving DecidableEq, Repr

-- ------------------------------------------------------------------
-- Gestures
-- ------------------------------------------------------------------

/-- Case-insensitive substring test: the store's `$regex` + `$options: "i"`
match on `name`, which for the plain-text queries this API describes is
"`pat` occurs in `hay` ignoring case" (spec §4.2: "case-insensitive
substring match on `name`"). -/
def strContainsCI (hay pat : String) : Bool :=
  let h := hay.toList.map Char.toLower
  let p := pat.toList.map Char.toLower
  (List.range (h.length + 1)).any (fun i => (h.drop i).take p.length == p)

/-- The filter document built by `list_gestures`: a `name` regex clause when
`q` is truthy (present and non-empty) and a `category` equality clause when
`category` is truthy. -/
def gestureFilter (q category : Option String) (g : GestureDoc) : Bool :=
  (match q with
   | none => true
   | some s => if s = "" then true else strContainsCI g.name s)
  && (match category with
      | none => true
      | some c => if c = "" then true else g.category == c)

/-- The summary projection of `list_gestures` (defaults: `difficulty` →
`"Pemula"`). -/
def gestureToOut (g : GestureDoc) : GestureOut :=
  { name := g.name, slug := g.slug, category := g.category,
    difficulty := g.difficulty.getD "Pemula", thumbnail := g.thumbnail }

/-- `GET /api/gestures`: empty list when the store is unavailable, otherwise
filter, skip `(page - 1) * page_size`, limit `page_size`, project. -/
def list_gestures (db : Option DB) (q category : Option String)
    (page page_size : Nat) : List GestureOut :=
  match db with
  | none => []
  | some d =>
    ((((d.gesture.filter (gestureFilter q category)).drop
        ((page - 1) * page_size)).take page_size).map gestureToOut)

/-- The detail projection of `get_gesture` (defaults: `difficulty` →
`"Pemula"`, the three lists → `[]`). -/
def gestureToDetail (g : GestureDoc) : GestureDetail :=
  { name := g.name, slug := g.slug, category := g.category,
    difficulty := g.difficulty.getD "Pemula", thumbnail := g.thumbnail,
    video_url := g.video_url, steps := g.steps.getD [],
    examples := g.examples.getD [], tags := g.tags.getD [] }

/-- `GET /api/gestures/{slug}`: 404 when the store is unavailable, 404 when
no document has the slug, otherwise the detail projection of the first
match. -/
def get_gesture (db : Option DB) (slug : String) : Except ApiError GestureDetail :=
  match db with
  | none => .error (.notFound "Not found")
  | some d =>
    match d.gesture.find? (fun g => g.slug == slug) with
    | none => .error (.notFound "Gesture not found")
    | some g => .ok (gestureToDetail g)

-- ------------------------------------------------------------------
-- Modules
-- ------------------------------------------------------------------

/-- The summary projection of `list_modules`. -/
def moduleToOut (m : ModuleDoc) : ModuleOut :=
  { title := m.title, slug := m.slug, summary := m.summary, cover := m.cover,
    difficulty := m.difficulty.getD "Pemula" }

/-- `GET /api/modules`: every module, unfiltered, in collection order; empty
when the store is unavailable. -/
def list_modules (db : Option DB) : List ModuleOut :=
  match db with
  | none => []
  | some d => d.module.map moduleToOut

/-- The detail projection of `get_module`. -/
def moduleToDetail (m : ModuleDoc) : ModuleDetail :=
  { title := m.title, slug := m.slug, summary := m.summary, cover := m.cover,
    lessons := m.lessons.getD [], difficulty := m.difficulty.getD "Pemula" }

/-- `GET /api/modules/{slug}`: 404 on unavailable store or miss, otherwise
the detail projection of the first match. -/
def get_module (db : Option DB) (slug : String) : Except ApiError ModuleDetail :=
  match db with
  | none => .error (.notFound "Not found")
  | some d =>
    match d.module.find? (fun m => m.slug == slug) with
    | none => .error (.notFound "Module not found")
    | some m => .ok (moduleToDetail m)

-- ------------------------------------------------------------------
-- Quizzes
-- ------------------------------------------------------------------

/-- The projection of `get_quiz` (defaults: `options` → `[]`,
`answer_index` → `0`). -/
def quizToOut (qq : QuizDoc) : QuizOut :=
  { module_slug := qq.module_slug, prompt := qq.prompt, media := qq.media,
    options := qq.options.getD [], answer_index := qq.answer_index.getD 0 }

/-- `GET /api/quizzes/{module_slug}`: all questions whose `module_slug`
equals the parameter, projected; empty when the store is unavailable. -/
def get_quiz (db : Option DB) (module_slug : String) : List QuizOut :=
  match db with
  | none => []
  | some d =>
    (d.quizquestion.filter (fun qq => qq.module_slug == module_slug)).map quizToOut

-- ------------------------------------------------------------------
-- Favorites
-- ------------------------------------------------------------------

/-- The filter document `{"user_email": ..., "gesture_slug": ...}` used by
`add_favorite`'s existence check. -/
def favMatches (user_email gesture_slug : String) (f : FavoriteDoc) : Bool :=
  f.user_email == user_email && f.gesture_slug == gesture_slug

/-- `GET /api/favorites`: all favorite pairs for the user; empty when the
store is unavailable. -/
def list_favorites (db : Option DB) (user_email : String) : List (String × String) :=
  match db with
  | none => []
  | some d =>
    (d.favorite.filter (fun f => f.user_email == user_email)).map
      (fun f => (f.user_email, f.gesture_slug))

/-- Modelled from the spec: `create_document` comes from the repository's
`database` module, which is not among the given sources; per the spec the
store "provide[s] find/insert/update-upsert primitives", so creating a
document appends it to the named collection.  This is the `favorite`
instance. -/
def create_favorite_document (d : DB) (f : FavoriteDoc) : DB :=
  { d with favorite := d.favorite ++ [f] }

/-- `POST /api/favorites`: `{ok: false}` when the store is unavailable; if an
identical pair already exists, `{ok: true}` without inserting; otherwise
insert the pair and return `{ok: true}`.  The Bool is the `ok` flag, the
second component the store afterwards. -/
def add_favorite (db : Option DB) (user_email gesture_slug : String) :
    Bool × Option DB :=
  match db with
  | none => (false, none)
  | some d =>
    match d.favorite.find? (favMatches user_email gesture_slug) with
    | some _ => (true, some d)
    | none =>
      (true, some (create_favorite_document d ⟨user_email, gesture_slug⟩))

-- ------------------------------------------------------------------
-- Profile
-- ------------------------------------------------------------------

/-- The default profile document `get_profile` persists for an unknown email
(the dict literal in `main.py`; no `avatar` key). -/
def defaultProfileDoc (email : String) : UserDoc :=
  { name := some "Pengguna", email := email, avatar := none,
    points := some 120, level := some 2, streak := some 5,
    badges := some ["Pemula"] }

/-- Modelled from the spec: the `user` instance of the missing `database`
module's `create_document` (insert one document into the collection). -/
def create_user_document (d : DB) (u : UserDoc) : DB :=
  { d with user := d.user ++ [u] }

/-- The response projection of `get_profile` (defaults: name → "Pengguna",
points → 0, level → 1, streak → 0, badges → []). -/
def userToProfile (u : UserDoc) : UserProfileOut :=
  { name := u.name.getD "Pengguna", email := u.email, avatar := u.avatar,
    points := u.points.getD 0, level := u.level.getD 1,
    streak := u.streak.getD 0, badges := u.badges.getD [] }

/-- `GET /api/profile`: 404 when the store is unavailable; look up by email;
if absent, persist the default profile and re-read; project the document
found.  If the re-read still found nothing the handler would dereference
`None` (an unhandled exception), modelled as `internalError`. -/
def get_profile (db : Option DB) (email : String) :
    Except ApiError UserProfileOut × Option DB :=
  match db with
  | none => (.error (.notFound "Not found"), none)
  | some d =>
    match d.user.find? (fun u => u.email == email) with
    | some u => (.ok (userToProfile u), some d)
    | none =>
      let d2 := create_user_document d (defaultProfileDoc email)
      match d2.user.find? (fun u => u.email == email) with
      | some u => (.ok (userToProfile u), some d2)
      | none => (.error .internalError, some d2)

-- ------------------------------------------------------------------
-- Progress
-- ------------------------------------------------------------------

/-- The filter document `{"user_email": ..., "module_slug": ...}` used by the
progress handlers. -/
def progMatches (user_email module_slug : String) (p : ProgressDoc) : Bool :=
  p.user_email == user_email && p.module_slug == module_slug

/-- `GET /api/progress`: the stored `completed_lessons` of the first document
matching the pair, `[]` on a miss or an unavailable store. -/
def get_progress (db : Option DB) (user_email module_slug : String) : List Int :=
  match db with
  | none => []
  | some d =>
    match d.progress.find? (progMatches user_email module_slug) with
    | some p => p.completed_lessons.getD []
    | none => []

/-- The store's `update_one` with a `$set` on `completed_lessons`: rewrite
that one field of the first document matching the pair, leaving every other
field and every other document alone. -/
def update_one_progress (ps : List ProgressDoc) (user_email module_slug : String)
    (lessons : List Int) : List ProgressDoc :=
  match ps with
  | [] => []
  | p :: rest =>
    if progMatches user_email module_slug p then
      { p with completed_lessons := some lessons } :: rest
    else
      p :: update_one_progress rest user_email module_slug lessons

/-- The document MongoDB materialises when the upsert of `set_progress`
finds no match: the filter's equality fields plus the `$set` field, and
nothing else (in particular no `updated_at`). -/
def upsertedProgress (user_email module_slug : String)
    (lessons : List Int) : ProgressDoc :=
  { user_email := user_email, module_slug := module_slug,
    completed_lessons := some lessons, updated_at := none }

/-- `POST /api/progress`: `{ok: false}` when the store is unavailable;
otherwise `update_one(filter, {$set: {completed_lessons}}, upsert=True)` —
rewrite the list on the first matching document, or, when none matches,
insert the upserted document. -/
def set_progress (db : Option DB) (user_email module_slug : String)
    (lessons : List Int) : Bool × Option DB :=
  match db with
  | none => (false, none)
  | some d =>
    if d.progress.any (progMatches user_email module_slug) then
      (true, some { d with
        progress := update_one_progress d.progress user_email module_slug lessons })
    else
      (true, some { d with
        progress := d.progress ++ [upsertedProgress user_email module_slug lessons] })

-- ------------------------------------------------------------------
-- Specification-side definitions (for refinement-style claims)
-- ------------------------------------------------------------------

/-- The gesture listing exactly as the specification sentence words it:
gestures "whose name contains q as a case-insensitive substring (when q is
given) AND whose category equals category exactly (when given), in insertion
order, with the first (page-1)*page_size matches skipped and at most
page_size returned".  To be compared with `list_gestures`. -/
def list_gestures_claim (db : Option DB) (q category : Option String)
    (page page_size : Nat) : List GestureOut :=
  match db with
  | none => []
  | some d =>
    ((((d.gesture.filter (fun g =>
        (match q with
         | none => true
         | some s => strContainsCI g.name s)
        && (match category with
            | none => true
            | some c => g.category == c))).drop
        ((page - 1) * page_size)).take page_size).map gestureToOut)

/-- The amended gesture listing: as `list_gestures_claim`, except that the
exact `category` filter applies only when `category` is given AND non-empty
(the handler treats an empty-string `category` as absent).  To be compared
with `list_gestures`. -/
def list_gestures_amended (db : Option DB) (q category : Option String)
    (page page_size : Nat) : List GestureOut :=
  match db with
  | none => []
  | some d =>
    ((((d.gesture.filter (fun g =>
        (match q with
         | none => true
         | some s => strContainsCI g.name s)
        && (match category with
            | none => true
            | some c => if c = "" then true else g.category == c))).drop
        ((page - 1) * page_size)).take page_size).map gestureToOut)

-- ------------------------------------------------------------------
-- Reachable store states (for the quiz-collection invariant)
-- ------------------------------------------------------------------

/-- The store states reachable through this API from the empty store: the
startup seed step plus the three state-changing handlers (`get_profile`'s
lazy create, `add_favorite`, `set_progress`).  Every other handler is a pure
read.  In particular no constructor writes the `quizquestion` collection
except the seed step. -/
inductive Reachable : Option DB → Prop where
  | empty : Reachable (some emptyDB)
  | seed {db : Option DB} : Reachable db → Reachable (ensure_seed_data db)
  | profile {db : Option DB} (email : String) :
      Reachable db → Reachable (get_profile db email).2
  | favorite {db : Option DB} (user_email gesture_slug : String) :
      Reachable db → Reachable (add_favorite db user_email gesture_slug).2
  | progress {db : Option DB} (user_email module_slug : String)
      (lessons : List Int) :
      Reachable db → Reachable (set_progress db user_email module_slug lessons).2

/-- A well-formed stored quiz document: its `options` field is present and
non-empty and its `answer_index` field is present and a valid 0-based index
into `options`. -/
def goodQuizDoc (qq : QuizDoc) : Prop :=
  ∃ opts, qq.options = some opts ∧ opts ≠ [] ∧
    ∃ i : Int, qq.answer_index = some i ∧ 0 ≤ i ∧ i < (opts.length : Int)

/-- A well-formed projected quiz question: non-empty `options` and an
`answer_index` that is a valid 0-based index into them. -/
def goodQuizOut (out : QuizOut) : Prop :=
  out.options ≠ [] ∧ 0 ≤ out.answer_index ∧
    out.answer_index < (out.options.length : Int)

/-- The per-element frame relation for `set_progress`: key fields and
`updated_at` are preserved, and a document not matching the targeted pair is
untouched entirely. -/
def progressFrame (user_email module_slug : String) (p p' : ProgressDoc) : Prop :=
  p'.user_email = p.user_email ∧ p'.module_slug = p.module_slug ∧
  p'.updated_at = p.updated_at ∧
  (progMatches user_email module_slug p = false → p' = p)

-- ------------------------------------------------------------------
-- Helper lemmas
-- ------------------------------------------------------------------

lemma find?_append_none {α : Type} {p : α → Bool} {l1 : List α} (l2 : List α)
    (h : l1.find? p = none) : (l1 ++ l2).find? p = l2.find? p := by
  rw [List.find?_append, h, Option.none_or]

lemma strContainsCI_empty_pat (hay : String) : strContainsCI hay "" = true := by
  unfold strContainsCI
  refine List.any_eq_true.2 ⟨0, List.mem_range.2 (Nat.succ_pos _), ?_⟩
  rfl

lemma seedStep_gesture (d : DB) :
    (seedStep d).gesture =
      if d.gesture = [] then d.gesture ++ seedGestures else d.gesture := by
  unfold seedStep
  by_cases h1 : d.gesture = [] <;> by_cases h2 : d.module = [] <;>
    by_cases h3 : d.quizquestion = [] <;>
      simp [h1, h2, h3, List.isEmpty_iff]

lemma seedStep_module (d : DB) :
    (seedStep d).module =
      if d.module = [] then d.module ++ seedModules else d.module := by
  unfold seedStep
  by_cases h1 : d.gesture = [] <;> by_cases h2 : d.module = [] <;>
    by_cases h3 : d.quizquestion = [] <;>
      simp [h1, h2, h3, List.isEmpty_iff]

lemma seedStep_quizquestion (d : DB) :
    (seedStep d).quizquestion =
      if d.quizquestion = [] then d.quizquestion ++ seedQuizzes
      else d.quizquestion := by
  unfold seedStep
  by_cases h1 : d.gesture = [] <;> by_cases h2 : d.module = [] <;>
    by_cases h3 : d.quizquestion = [] <;>
      simp [h1, h2, h3, List.isEmpty_iff]

lemma seedStep_favorite (d : DB) : (seedStep d).favorite = d.favorite := by
  unfold seedStep
  by_cases h1 : d.gesture.isEmpty <;> by_cases h2 : d.module.isEmpty <;>
    by_cases h3 : d.quizquestion.isEmpty <;> simp [h1, h2, h3]

lemma seedStep_user (d : DB) : (seedStep d).user = d.user := by
  unfold seedStep
  by_cases h1 : d.gesture.isEmpty <;> by_cases h2 : d.module.isEmpty <;>
    by_cases h3 : d.quizquestion.isEmpty <;> simp [h1, h2, h3]

lemma seedStep_progress (d : DB) : (seedStep d).progress = d.progress := by
  unfold seedStep
  by_cases h1 : d.gesture.isEmpty <;> by_cases h2 : d.module.isEmpty <;>
    by_cases h3 : d.quizquestion.isEmpty <;> simp [h1, h2, h3]

lemma seedStep_of_nonempty (d : DB) (hg : d.gesture ≠ []) (hm : d.module ≠ [])
    (hq : d.quizquestion ≠ []) : seedStep d = d := by
  unfold seedStep
  simp [List.isEmpty_iff, hg, hm, hq]

lemma progMatches_set (user_email module_slug : String) (p : ProgressDoc)
    (lessons : List Int) :
    progMatches user_email module_slug
      { p with completed_lessons := some lessons } =
    progMatches user_email module_slug p := rfl

lemma update_one_progress_length (ps : List ProgressDoc)
    (user_email module_slug : String) (lessons : List Int) :
    (update_one_progress ps user_email module_slug lessons).length = ps.length := by
  induction ps with
  | nil => rfl
  | cons p rest ih =>
    unfold update_one_progress
    by_cases h : progMatches user_email module_slug p = true <;> simp [h, ih]

lemma update_one_progress_filter_length (ps : List ProgressDoc)
    (user_email module_slug : String) (lessons : List Int) :
    ((update_one_progress ps user_email module_slug lessons).filter
        (progMatches user_email module_slug)).length =
      (ps.filter (progMatches user_email module_slug)).length := by
  induction ps with
  | nil => rfl
  | cons p rest ih =>
    unfold update_one_progress
    by_cases h : progMatches user_email module_slug p = true <;>
      simp [List.filter_cons, progMatches_set, h, ih]

lemma update_one_progress_all (ps : List ProgressDoc)
    (user_email module_slug : String) (lessons : List Int)
    (h : (ps.filter (progMatches user_email module_slug)).length ≤ 1) :
    ∀ p' ∈ update_one_progress ps user_email module_slug lessons,
      progMatches user_email module_slug p' = true →
        p'.completed_lessons = some lessons := by
  induction ps with
  | nil => intro p' hp'; simp [update_one_progress] at hp'
  | cons p rest ih =>
    unfold update_one_progress
    by_cases hm : progMatches user_email module_slug p = true
    · simp only [hm, if_true]
      intro p' hp' hmp'
      rcases List.mem_cons.1 hp' with rfl | hmem
      · rfl
      · exfalso
        have hrest : rest.filter (progMatches user_email module_slug) = [] := by
          rw [List.filter_cons_of_pos hm] at h
          simp only [List.length_cons] at h
          exact List.length_eq_zero.1 (by omega)
        have : p' ∈ rest.filter (progMatches user_email module_slug) :=
          List.mem_filter.2 ⟨hmem, hmp'⟩
        rw [hrest] at this
        simp at this
    · simp only [hm, if_false]
      intro p' hp' hmp'
      rcases List.mem_cons.1 hp' with rfl | hmem
      · exact absurd hmp' hm
      · refine ih ?_ p' hmem hmp'
        rw [List.filter_cons_of_neg (by simpa using hm)] at h
        exact h

lemma update_one_progress_find? (ps : List ProgressDoc)
    (user_email module_slug : String) (lessons : List Int)
    (h : ps.any (progMatches user_email module_slug) = true) :
    ∃ p', (update_one_progress ps user_email module_slug lessons).find?
        (progMatches user_email module_slug) = some p'
      ∧ p'.completed_lessons = some lessons := by
  induction ps with
  | nil => simp at h
  | cons p rest ih =>
    unfold update_one_progress
    by_cases hm : progMatches user_email module_slug p = true
    · refine ⟨{ p with completed_lessons := some lessons }, ?_, rfl⟩
      rw [if_pos hm]
      rw [List.find?_cons_of_pos]
      rw [progMatches_set]
      exact hm
    · rw [if_neg hm]
      have hrest : rest.any (progMatches user_email module_slug) = true := by
        rcases List.any_eq_true.1 h with ⟨x, hx, hpx⟩
        rcases List.mem_cons.1 hx with rfl | hxm
        · exact absurd hpx hm
        · exact List.any_eq_true.2 ⟨x, hxm, hpx⟩
      obtain ⟨p', hp', hcl⟩ := ih hrest
      refine ⟨p', ?_, hcl⟩
      rw [List.find?_cons_of_neg _ hm]
      exact hp'

lemma update_one_progress_forall2 (ps : List ProgressDoc)
    (user_email module_slug : String) (lessons : List Int) :
    List.Forall₂ (progressFrame user_email module_slug) ps
      (update_one_progress ps user_email module_slug lessons) := by
  induction ps with
  | nil => exact List.Forall₂.nil
  | cons p rest ih =>
    unfold update_one_progress
    by_cases hm : progMatches user_email module_slug p = true
    · simp only [hm, if_true]
      refine List.Forall₂.cons ⟨rfl, rfl, rfl, fun hf => ?_⟩ ?_
      · rw [hm] at hf; cases hf
      · exact List.forall₂_same.2 fun x _ => ⟨rfl, rfl, rfl, fun _ => rfl⟩
    · simp only [hm, if_false]
      exact List.Forall₂.cons ⟨rfl, rfl, rfl, fun _ => rfl⟩ ih

lemma get_progress_some (d : DB) (ue ms : String) :
    get_progress (some d) ue ms =
      match d.progress.find? (progMatches ue ms) with
      | some p => p.completed_lessons.getD []
      | none => [] := rfl

lemma get_profile_some (d : DB) (email : String) :
    get_profile (some d) email =
      match d.user.find? (fun u : UserDoc => u.email == email) with
      | some u => (.ok (userToProfile u), some d)
      | none =>
        match (d.user ++ [defaultProfileDoc email]).find?
            (fun u : UserDoc => u.email == email) with
        | some u => (.ok (userToProfile u),
            some (create_user_document d (defaultProfileDoc email)))
        | none => (.error .internalError,
            some (create_user_document d (defaultProfileDoc email))) := rfl

lemma add_favorite_some (d : DB) (ue gs : String) :
    add_favorite (some d) ue gs =
      match d.favorite.find? (favMatches ue gs) with
      | some _ => (true, some d)
      | none => (true, some (create_favorite_document d
          { user_email := ue, gesture_slug := gs })) := rfl

lemma seedQuizzes_good : ∀ qq ∈ seedQuizzes, goodQuizDoc qq := by
  intro qq hqq
  simp [seedQuizzes] at hqq
  subst hqq
  exact ⟨_, rfl, by decide, 0, rfl, by decide, by decide⟩

-- ------------------------------------------------------------------
-- Claim theorems
-- ------------------------------------------------------------------

/-- C7: when the underlying store is unavailable (`db is None`), every
list-style read returns the empty sequence, `get_progress` returns the empty
lesson list, and both writes return `ok = false`; none of them raises and
the store (still `none`) is unchanged. -/
theorem unavailable_store_degrades :
    (∀ (q category : Option String) (page page_size : Nat),
        list_gestures none q category page page_size = [])
    ∧ list_modules none = []
    ∧ (∀ ms : String, get_quiz none ms = [])
    ∧ (∀ ue : String, list_favorites none ue = [])
    ∧ (∀ ue ms : String, get_progress none ue ms = [])
    ∧ (∀ ue gs : String, add_favorite none ue gs = (false, none))
    ∧ (∀ (ue ms : String) (lessons : List Int),
        set_progress none ue ms lessons = (false, none)) :=
  ⟨fun _ _ _ _ => rfl, rfl, fun _ => rfl, fun _ => rfl, fun _ _ => rfl,
   fun _ _ => rfl, fun _ _ _ => rfl⟩

/-- C5: the seed step is skipped silently on an unavailable store; on a store
where all three seeded collections are non-empty it changes nothing; and for
each of the `gesture`, `module` and `quizquestion` collections it inserts
its fixed batch exactly when that collection is empty (in MongoDB: absent or
with zero documents) and leaves it untouched otherwise, never touching the
other three collections; the batches hold 3 gestures, 2 modules and 1 quiz
question. -/
theorem ensure_seed_data_only_fills_empty :
    ensure_seed_data none = none
    ∧ (∀ d : DB, d.gesture ≠ [] → d.module ≠ [] → d.quizquestion ≠ [] →
        ensure_seed_data (some d) = some d)
    ∧ (∀ d : DB,
        ((seedStep d).gesture =
          if d.gesture = [] then d.gesture ++ seedGestures else d.gesture)
        ∧ ((seedStep d).module =
            if d.module = [] then d.module ++ seedModules else d.module)
        ∧ ((seedStep d).quizquestion =
            if d.quizquestion = [] then d.quizquestion ++ seedQuizzes
            else d.quizquestion)
        ∧ (seedStep d).favorite = d.favorite
        ∧ (seedStep d).user = d.user
        ∧ (seedStep d).progress = d.progress)
    ∧ seedGestures.length = 3 ∧ seedModules.length = 2
    ∧ seedQuizzes.length = 1 := by
  refine ⟨rfl, ?_, ?_, rfl, rfl, rfl⟩
  · intro d hg hm hq
    simp [ensure_seed_data, seedStep_of_nonempty d hg hm hq]
  · intro d
    exact ⟨seedStep_gesture d, seedStep_module d, seedStep_quizquestion d,
           seedStep_favorite d, seedStep_user d, seedStep_progress d⟩

/-- Witness for C5: the seeded store is populated, so a second run of the
seed step is a no-op. -/
theorem ensure_seed_data_only_fills_empty_witness :
    ensure_seed_data (some seededDB) = some seededDB :=
  ensure_seed_data_only_fills_empty.2.1 seededDB (by decide) (by decide)
    (by decide)

/-- C2: `add_favorite` is idempotent.  On a store holding at most one
favorite document for the pair (the uniqueness invariant of the data model),
the first call answers `ok = true`, a repeated call answers `ok = true` and
leaves the store exactly as after the first call, and the store then holds
exactly one favorite document for the pair. -/
theorem add_favorite_idempotent (d : DB) (ue gs : String)
    (h : (d.favorite.filter (favMatches ue gs)).length ≤ 1) :
    ∃ d1, add_favorite (some d) ue gs = (true, some d1)
      ∧ add_favorite (some d1) ue gs = (true, some d1)
      ∧ (d1.favorite.filter (favMatches ue gs)).length = 1 := by
  cases hf : d.favorite.find? (favMatches ue gs) with
  | some f =>
    refine ⟨d, ?_, ?_, ?_⟩
    · rw [add_favorite_some, hf]
    · rw [add_favorite_some, hf]
    · have hmem : f ∈ d.favorite.filter (favMatches ue gs) :=
        List.mem_filter.2 ⟨List.mem_of_find?_eq_some hf, List.find?_some hf⟩
      have hpos : 0 < (d.favorite.filter (favMatches ue gs)).length :=
        List.length_pos.2 (fun hnil => by rw [hnil] at hmem; simp at hmem)
      omega
  | none =>
    have hkey : favMatches ue gs { user_email := ue, gesture_slug := gs } = true := by
      simp [favMatches]
    have hf2 : (create_favorite_document d
          { user_email := ue, gesture_slug := gs }).favorite.find?
          (favMatches ue gs) =
        some { user_email := ue, gesture_slug := gs } := by
      show (d.favorite ++ [({ user_email := ue, gesture_slug := gs } : FavoriteDoc)]).find?
          (favMatches ue gs) = _
      rw [find?_append_none _ hf]
      exact List.find?_cons_of_pos _ hkey
    have hfil : d.favorite.filter (favMatches ue gs) = [] :=
      List.filter_eq_nil_iff.2 (List.find?_eq_none.1 hf)
    refine ⟨create_favorite_document d { user_email := ue, gesture_slug := gs },
      ?_, ?_, ?_⟩
    · rw [add_favorite_some, hf]
    · rw [add_favorite_some, hf2]
    · show ((d.favorite ++ [({ user_email := ue, gesture_slug := gs } : FavoriteDoc)]).filter
          (favMatches ue gs)).length = 1
      simp [List.filter_append, hfil, hkey]

/-- Witness for C2: adding a favorite to the freshly seeded store (which has
no favorites at all). -/
theorem add_favorite_idempotent_witness :
    ∃ d1, add_favorite (some seededDB) "u@example.org" "a" = (true, some d1)
      ∧ add_favorite (some d1) "u@example.org" "a" = (true, some d1)
      ∧ (d1.favorite.filter (favMatches "u@example.org" "a")).length = 1 :=
  add_favorite_idempotent seededDB "u@example.org" "a" (by decide)

/-- C3: `set_progress` is a replacing upsert.  On a store holding at most
one progress document for the pair, the call answers `ok = true`; afterwards
exactly one document for the pair is stored, its `completed_lessons` is
exactly the submitted list (whatever was stored before), a read through
`get_progress` returns that list, and if no document for the pair existed
one is created. -/
theorem set_progress_replaces_entire_list (d : DB) (ue ms : String)
    (lessons : List Int)
    (h : (d.progress.filter (progMatches ue ms)).length ≤ 1) :
    ∃ d', set_progress (some d) ue ms lessons = (true, some d')
      ∧ (d'.progress.filter (progMatches ue ms)).length = 1
      ∧ (∀ p ∈ d'.progress, progMatches ue ms p = true →
          p.completed_lessons = some lessons)
      ∧ get_progress (some d') ue ms = lessons
      ∧ ((∀ p ∈ d.progress, progMatches ue ms p = false) →
          d'.progress = d.progress ++ [upsertedProgress ue ms lessons]) := by
  by_cases ha : d.progress.any (progMatches ue ms) = true
  · refine ⟨{ d with progress := update_one_progress d.progress ue ms lessons },
      by simp [set_progress, ha], ?_, ?_, ?_, ?_⟩
    · show ((update_one_progress d.progress ue ms lessons).filter
          (progMatches ue ms)).length = 1
      rw [update_one_progress_filter_length]
      obtain ⟨x, hx, hpx⟩ := List.any_eq_true.1 ha
      have hmem : x ∈ d.progress.filter (progMatches ue ms) :=
        List.mem_filter.2 ⟨hx, hpx⟩
      have hpos : 0 < (d.progress.filter (progMatches ue ms)).length :=
        List.length_pos.2 (fun hnil => by rw [hnil] at hmem; simp at hmem)
      omega
    · show ∀ p ∈ update_one_progress d.progress ue ms lessons, _
      exact update_one_progress_all d.progress ue ms lessons h
    · obtain ⟨p', hp', hcl⟩ := update_one_progress_find? d.progress ue ms lessons ha
      rw [get_progress_some]
      show (match (update_one_progress d.progress ue ms lessons).find?
          (progMatches ue ms) with
        | some p => p.completed_lessons.getD []
        | none => ([] : List Int)) = lessons
      rw [hp']
      simp [hcl]
    · intro hall
      obtain ⟨x, hx, hpx⟩ := List.any_eq_true.1 ha
      rw [hall x hx] at hpx
      cases hpx
  · have ha' : d.progress.any (progMatches ue ms) = false := by
      simpa using ha
    have hnone : d.progress.find? (progMatches ue ms) = none :=
      List.find?_eq_none.2 (List.any_eq_false.1 ha')
    have hnil : d.progress.filter (progMatches ue ms) = [] :=
      List.filter_eq_nil_iff.2 (List.any_eq_false.1 ha')
    have hkey : progMatches ue ms (upsertedProgress ue ms lessons) = true := by
      simp [progMatches, upsertedProgress]
    refine ⟨{ d with
        progress := d.progress ++ [upsertedProgress ue ms lessons] },
      by simp [set_progress, ha'], ?_, ?_, ?_, fun _ => rfl⟩
    · show ((d.progress ++ [upsertedProgress ue ms lessons]).filter
          (progMatches ue ms)).length = 1
      simp [List.filter_append, hnil, hkey]
    · intro p hp hmp
      rcases List.mem_append.1 hp with hmem | hmem
      · exact absurd hmp (List.any_eq_false.1 ha' p hmem)
      · rw [List.mem_singleton.1 hmem]
        rfl
    · have hfind : (d.progress ++ [upsertedProgress ue ms lessons]).find?
          (progMatches ue ms) = some (upsertedProgress ue ms lessons) := by
        rw [find?_append_none _ hnone]
        exact List.find?_cons_of_pos _ hkey
      rw [get_progress_some]
      show (match (d.progress ++ [upsertedProgress ue ms lessons]).find?
          (progMatches ue ms) with
        | some p => p.completed_lessons.getD []
        | none => ([] : List Int)) = lessons
      rw [hfind]
      simp [upsertedProgress]

/-- Witness for C3: submitting `[0, 1]` and then `[2]` for a pair unknown to
the seeded store leaves exactly `[2]` stored. -/
theorem set_progress_replaces_entire_list_witness :
    ∃ d', set_progress (some seededDB) "u@example.com" "dasar-dasar" [2] =
        (true, some d')
      ∧ (d'.progress.filter (progMatches "u@example.com" "dasar-dasar")).length = 1
      ∧ (∀ p ∈ d'.progress,
          progMatches "u@example.com" "dasar-dasar" p = true →
            p.completed_lessons = some [2])
      ∧ get_progress (some d') "u@example.com" "dasar-dasar" = [2]
      ∧ ((∀ p ∈ seededDB.progress,
            progMatches "u@example.com" "dasar-dasar" p = false) →
          d'.progress = seededDB.progress ++
            [upsertedProgress "u@example.com" "dasar-dasar" [2]]) :=
  set_progress_replaces_entire_list seededDB "u@example.com" "dasar-dasar" [2]
    (by decide)

/-- C1: for an email with no existing `user` document, `get_profile`
persists exactly one default record (appending `defaultProfileDoc` and
nothing else), re-reads it and returns name="Pengguna", points=120, level=2,
streak=5, badges=["Pemula"]; a second call on the resulting store returns
the same values and leaves the store unchanged; and `get_profile` yields an
error exactly when the store is unavailable. -/
theorem get_profile_lazy_creates (d : DB) (email : String)
    (h : ∀ u ∈ d.user, u.email ≠ email) :
    get_profile (some d) email =
      (.ok { name := "Pengguna", email := email, avatar := none,
             points := 120, level := 2, streak := 5, badges := ["Pemula"] },
       some { d with user := d.user ++ [defaultProfileDoc email] })
    ∧ get_profile (some { d with user := d.user ++ [defaultProfileDoc email] })
        email =
      (.ok { name := "Pengguna", email := email, avatar := none,
             points := 120, level := 2, streak := 5, badges := ["Pemula"] },
       some { d with user := d.user ++ [defaultProfileDoc email] })
    ∧ (∀ db : Option DB,
        (∃ e, (get_profile db email).1 = .error e) ↔ db = none) := by
  have hf : d.user.find? (fun u : UserDoc => u.email == email) = none :=
    List.find?_eq_none.2 (by intro u hu; simpa using h u hu)
  have hf2 : (d.user ++ [defaultProfileDoc email]).find?
      (fun u : UserDoc => u.email == email) = some (defaultProfileDoc email) := by
    rw [find?_append_none _ hf]
    exact List.find?_cons_of_pos _ (by simp [defaultProfileDoc])
  refine ⟨?_, ?_, ?_⟩
  · rw [get_profile_some, hf, hf2]
    rfl
  · rw [get_profile_some]
    dsimp only
    rw [hf2]
    rfl
  · intro db
    cases db with
    | none => exact ⟨fun _ => rfl, fun _ => ⟨.notFound "Not found", rfl⟩⟩
    | some d' =>
      refine ⟨?_, fun hc => by cases hc⟩
      rintro ⟨e, he⟩
      exfalso
      rcases hfd : d'.user.find? (fun u : UserDoc => u.email == email) with _ | u
      · have hfd2 : (d'.user ++ [defaultProfileDoc email]).find?
            (fun u : UserDoc => u.email == email) =
            some (defaultProfileDoc email) := by
          rw [find?_append_none _ hfd]
          exact List.find?_cons_of_pos _ (by simp [defaultProfileDoc])
        rw [get_profile_some, hfd, hfd2] at he
        simp at he
      · rw [get_profile_some, hfd] at he
        simp at he

/-- Witness for C1: fetching the profile of an email unknown to the seeded
store (whose `user` collection is empty). -/
theorem get_profile_lazy_creates_witness :
    get_profile (some seededDB) "new@example.com" =
      (.ok { name := "Pengguna", email := "new@example.com", avatar := none,
             points := 120, level := 2, streak := 5, badges := ["Pemula"] },
       some { seededDB with
         user := seededDB.user ++ [defaultProfileDoc "new@example.com"] }) :=
  (get_profile_lazy_creates seededDB "new@example.com" (by decide)).1

/-- C6: `get_gesture` (and likewise `get_module`) yields a NotFound error
(HTTP 404) exactly when the store is unavailable or no document carries the
requested slug; when a document does carry it, the handler returns that
document's projection — never an empty or default object on a miss.  On the
seeded store, slug "zzz" is a 404. -/
theorem get_single_notfound_exact :
    (∀ (db : Option DB) (slug : String),
        (∃ s, get_gesture db slug = .error (.notFound s)) ↔
          (db = none ∨ ∃ d, db = some d ∧ ∀ g ∈ d.gesture, g.slug ≠ slug))
    ∧ (∀ (d : DB) (slug : String), (∃ g ∈ d.gesture, g.slug = slug) →
        ∃ g, g ∈ d.gesture ∧ g.slug = slug ∧
          get_gesture (some d) slug = .ok (gestureToDetail g))
    ∧ (∀ (db : Option DB) (slug : String),
        (∃ s, get_module db slug = .error (.notFound s)) ↔
          (db = none ∨ ∃ d, db = some d ∧ ∀ m ∈ d.module, m.slug ≠ slug))
    ∧ (∀ (d : DB) (slug : String), (∃ m ∈ d.module, m.slug = slug) →
        ∃ m, m ∈ d.module ∧ m.slug = slug ∧
          get_module (some d) slug = .ok (moduleToDetail m))
    ∧ get_gesture (some seededDB) "zzz" = .error (.notFound "Gesture not found") := by
  refine ⟨?_, ?_, ?_, ?_, by rfl⟩
  · intro db slug
    cases db with
    | none => exact ⟨fun _ => .inl rfl, fun _ => ⟨"Not found", rfl⟩⟩
    | some d =>
      rcases hfd : d.gesture.find? (fun g : GestureDoc => g.slug == slug)
        with _ | g
      · refine ⟨fun _ => .inr ⟨d, rfl, ?_⟩, fun _ => ⟨"Gesture not found", ?_⟩⟩
        · intro g hg
          simpa using List.find?_eq_none.1 hfd g hg
        · simp [get_gesture, hfd]
      · constructor
        · rintro ⟨s, hs⟩
          rw [show get_gesture (some d) slug = .ok (gestureToDetail g) from by
            simp [get_gesture, hfd]] at hs
          cases hs
        · rintro (hc | ⟨d', hd', hall⟩)
          · cases hc
          · exfalso
            cases Option.some.injEq .. ▸ hd' with
            | refl =>
              exact hall g (List.mem_of_find?_eq_some hfd)
                (by simpa using List.find?_some hfd)
  · intro d slug ⟨g0, hg0, hs0⟩
    rcases hfd : d.gesture.find? (fun g : GestureDoc => g.slug == slug)
      with _ | g
    · exact absurd hs0 (by simpa using List.find?_eq_none.1 hfd g0 hg0)
    · exact ⟨g, List.mem_of_find?_eq_some hfd,
        by simpa using List.find?_some hfd, by simp [get_gesture, hfd]⟩
  · intro db slug
    cases db with
    | none => exact ⟨fun _ => .inl rfl, fun _ => ⟨"Not found", rfl⟩⟩
    | some d =>
      rcases hfd : d.module.find? (fun m : ModuleDoc => m.slug == slug)
        with _ | m
      · refine ⟨fun _ => .inr ⟨d, rfl, ?_⟩, fun _ => ⟨"Module not found", ?_⟩⟩
        · intro m hm
          simpa using List.find?_eq_none.1 hfd m hm
        · simp [get_module, hfd]
      · constructor
        · rintro ⟨s, hs⟩
          rw [show get_module (some d) slug = .ok (moduleToDetail m) from by
            simp [get_module, hfd]] at hs
          cases hs
        · rintro (hc | ⟨d', hd', hall⟩)
          · cases hc
          · exfalso
            cases Option.some.injEq .. ▸ hd' with
            | refl =>
              exact hall m (List.mem_of_find?_eq_some hfd)
                (by simpa using List.find?_some hfd)
  · intro d slug ⟨m0, hm0, hs0⟩
    rcases hfd : d.module.find? (fun m : ModuleDoc => m.slug == slug)
      with _ | m
    · exact absurd hs0 (by simpa using List.find?_eq_none.1 hfd m0 hm0)
    · exact ⟨m, List.mem_of_find?_eq_some hfd,
        by simpa using List.find?_some hfd, by simp [get_module, hfd]⟩

/-- Witness for C6: the seeded store holds a gesture with slug "a", and
`get_gesture` returns its projection. -/
theorem get_single_notfound_exact_witness :
    ∃ g, g ∈ seededDB.gesture ∧ g.slug = "a" ∧
      get_gesture (some seededDB) "a" = .ok (gestureToDetail g) :=
  get_single_notfound_exact.2.1 seededDB "a" (by decide)

/-- C8: `get_quiz` returns exactly the stored questions whose `module_slug`
equals the parameter — every returned item is the projection of such a
stored document and every such stored document is returned — and the empty
sequence when none match or the store is unavailable; on the seeded store,
"dasar-dasar" yields exactly the one seeded question and every other slug
yields nothing. -/
theorem get_quiz_filter_exact :
    (∀ (d : DB) (ms : String), ∀ out ∈ get_quiz (some d) ms,
        ∃ qq, qq ∈ d.quizquestion ∧ qq.module_slug = ms ∧ out = quizToOut qq)
    ∧ (∀ (d : DB) (ms : String) (qq : QuizDoc), qq ∈ d.quizquestion →
        qq.module_slug = ms → quizToOut qq ∈ get_quiz (some d) ms)
    ∧ (∀ (d : DB) (ms : String),
        (∀ qq ∈ d.quizquestion, qq.module_slug ≠ ms) →
          get_quiz (some d) ms = [])
    ∧ (∀ ms : String, get_quiz none ms = [])
    ∧ get_quiz (some seededDB) "dasar-dasar" =
        [{ module_slug := "dasar-dasar",
           prompt := "Gestur mana yang berarti \x27Terima Kasih\x27?",
           media := none,
           options := ["Sentuh dagu lalu jauhkan tangan", "Kepal tangan",
                       "Telapak ke atas"],
           answer_index := 0 }]
    ∧ (∀ s : String, s ≠ "dasar-dasar" → get_quiz (some seededDB) s = []) := by
  refine ⟨?_, ?_, ?_, fun _ => rfl, by decide, ?_⟩
  · intro d ms out hout
    rw [show get_quiz (some d) ms =
        (d.quizquestion.filter (fun qq => qq.module_slug == ms)).map quizToOut
      from rfl] at hout
    rcases List.mem_map.1 hout with ⟨qq, hqq, rfl⟩
    rcases List.mem_filter.1 hqq with ⟨hmem, hms⟩
    exact ⟨qq, hmem, by simpa using hms, rfl⟩
  · intro d ms qq hmem hms
    rw [show get_quiz (some d) ms =
        (d.quizquestion.filter (fun qq => qq.module_slug == ms)).map quizToOut
      from rfl]
    exact List.mem_map.2 ⟨qq, List.mem_filter.2 ⟨hmem, by simpa using hms⟩, rfl⟩
  · intro d ms hall
    rw [show get_quiz (some d) ms =
        (d.quizquestion.filter (fun qq => qq.module_slug == ms)).map quizToOut
      from rfl]
    rw [List.filter_eq_nil_iff.2 (fun qq hqq => by simpa using hall qq hqq)]
    rfl
  · intro s hs
    rw [show get_quiz (some seededDB) s =
        (seededDB.quizquestion.filter (fun qq => qq.module_slug == s)).map
          quizToOut
      from rfl]
    rw [List.filter_eq_nil_iff.2 ?_]
    · rfl
    · intro qq hqq
      have : qq.module_slug = "dasar-dasar" := by
        simp [seededDB, emptyDB, seedQuizzes] at hqq
        rw [hqq]
      simpa [this] using fun hh => hs hh.symm

/-- Witness for C8: a slug other than "dasar-dasar" yields no questions on
the seeded store. -/
theorem get_quiz_filter_exact_witness :
    get_quiz (some seededDB) "ekspresi-emosi" = [] :=
  get_quiz_filter_exact.2.2.2.2.2 "ekspresi-emosi" (by decide)

/-- C4, counterexample: the claim's filter ("category equals category
exactly when given") disagrees with the handler at `category = some ""`: the
handler treats an empty-string category as absent (Python truthiness of
`if category:`) and returns all three seeded gestures, while the claimed
filter would return only gestures whose category is the empty string —
none. -/
theorem list_gestures_claim_counterexample :
    ¬ (list_gestures (some seededDB) none (some "") 1 20 =
       list_gestures_claim (some seededDB) none (some "") 1 20) := by
  decide

/-- C4, amended: `list_gestures` returns exactly the gesture documents whose
name contains `q` as a case-insensitive substring (when `q` is given) and
whose category equals `category` exactly (when `category` is given and
non-empty), in insertion order, skipping the first `(page-1)*page_size`
matches and returning at most `page_size`; in particular `page=2,
page_size=1` on the freshly seeded store returns exactly the gesture with
slug "b". -/
theorem list_gestures_matches_amended_spec :
    (∀ (db : Option DB) (q category : Option String) (page page_size : Nat),
        list_gestures db q category page page_size =
          list_gestures_amended db q category page page_size)
    ∧ list_gestures (some seededDB) none none 2 1 =
        [{ name := "B", slug := "b", category := "A-Z",
           difficulty := "Pemula", thumbnail := some "/gestures/b.png" }] := by
  refine ⟨?_, by decide⟩
  intro db q category page page_size
  cases db with
  | none => rfl
  | some d =>
    show (((d.gesture.filter (gestureFilter q category)).drop
        ((page - 1) * page_size)).take page_size).map gestureToOut = _
    rw [show list_gestures_amended (some d) q category page page_size =
        (((d.gesture.filter (fun g =>
            (match q with
             | none => true
             | some s => strContainsCI g.name s)
            && (match category with
                | none => true
                | some c => if c = "" then true else g.category == c))).drop
          ((page - 1) * page_size)).take page_size).map gestureToOut from rfl]
    rw [List.filter_congr ?_]
    intro g _
    unfold gestureFilter
    congr 1
    cases q with
    | none => rfl
    | some s =>
      dsimp only
      by_cases hs : s = ""
      · subst hs
        rw [if_pos rfl, strContainsCI_empty_pat]
      · rw [if_neg hs]

/-- C9: in every store state reachable through this API from the empty
store, every document of the `quizquestion` collection has a present,
non-empty `options` list and a present `answer_index` that is a valid
0-based index into it, and every question `get_quiz` returns satisfies the
same bound. -/
theorem quiz_answer_index_invariant (db : Option DB) (h : Reachable db) :
    (∀ d : DB, db = some d → ∀ qq ∈ d.quizquestion, goodQuizDoc qq)
    ∧ (∀ ms : String, ∀ out ∈ get_quiz db ms, goodQuizOut out) := by
  have main : ∀ d : DB, db = some d → ∀ qq ∈ d.quizquestion, goodQuizDoc qq := by
    induction h with
    | empty =>
      intro d hd qq hqq
      cases hd
      simp [emptyDB] at hqq
    | @seed db0 hr ih =>
      intro d hd qq hqq
      cases db0 with
      | none => cases hd
      | some d0 =>
        have hd' : d = seedStep d0 := by
          simpa [ensure_seed_data] using hd.symm
        subst hd'
        rw [seedStep_quizquestion] at hqq
        by_cases h0 : d0.quizquestion = []
        · rw [if_pos h0, h0] at hqq
          exact seedQuizzes_good qq (by simpa using hqq)
        · rw [if_neg h0] at hqq
          exact ih _ rfl qq hqq
    | @profile db0 email hr ih =>
      intro d hd qq hqq
      cases db0 with
      | none => cases hd
      | some d0 =>
        rw [get_profile_some] at hd
        rcases hfd : d0.user.find? (fun u : UserDoc => u.email == email)
          with _ | u
        · rw [hfd] at hd
          rcases hfd2 : (d0.user ++ [defaultProfileDoc email]).find?
              (fun u : UserDoc => u.email == email) with _ | u
          · rw [hfd2] at hd
            cases hd
            exact ih _ rfl qq hqq
          · rw [hfd2] at hd
            cases hd
            exact ih _ rfl qq hqq
        · rw [hfd] at hd
          cases hd
          exact ih _ rfl qq hqq
    | @favorite db0 ue gs hr ih =>
      intro d hd qq hqq
      cases db0 with
      | none => cases hd
      | some d0 =>
        rw [add_favorite_some] at hd
        rcases hfd : d0.favorite.find? (favMatches ue gs) with _ | f
        · rw [hfd] at hd
          cases hd
          exact ih _ rfl qq hqq
        · rw [hfd] at hd
          cases hd
          exact ih _ rfl qq hqq
    | @progress db0 ue ms lessons hr ih =>
      intro d hd qq hqq
      cases db0 with
      | none => cases hd
      | some d0 =>
        by_cases ha : d0.progress.any (progMatches ue ms) = true
        · rw [show (set_progress (some d0) ue ms lessons).2 =
              some { d0 with progress :=
                update_one_progress d0.progress ue ms lessons } from by
              simp [set_progress, ha]] at hd
          cases hd
          exact ih _ rfl qq hqq
        · rw [show (set_progress (some d0) ue ms lessons).2 =
              some { d0 with progress :=
                d0.progress ++ [upsertedProgress ue ms lessons] } from by
              simp [set_progress, ha]] at hd
          cases hd
          exact ih _ rfl qq hqq
  refine ⟨main, ?_⟩
  intro ms out hout
  cases db with
  | none => simp [get_quiz] at hout
  | some d =>
    rw [show get_quiz (some d) ms =
        (d.quizquestion.filter (fun qq => qq.module_slug == ms)).map quizToOut
      from rfl] at hout
    rcases List.mem_map.1 hout with ⟨qq, hqq, rfl⟩
    rcases List.mem_filter.1 hqq with ⟨hmem, _⟩
    rcases main d rfl qq hmem with ⟨opts, hopts, hne, i, hi, h0, hlt⟩
    refine ⟨by simp [quizToOut, hopts, hne], ?_, ?_⟩
    · show 0 ≤ (quizToOut qq).answer_index
      simp [quizToOut, hi, h0]
    · show (quizToOut qq).answer_index < ((quizToOut qq).options.length : Int)
      simp [quizToOut, hopts, hi, hlt]

/-- Witness for C9: the single question of the freshly seeded store is
well-formed. -/
theorem quiz_answer_index_invariant_witness :
    goodQuizDoc
      { module_slug := "dasar-dasar",
        prompt := "Gestur mana yang berarti \x27Terima Kasih\x27?",
        media := none,
        options := some ["Sentuh dagu lalu jauhkan tangan", "Kepal tangan",
                         "Telapak ke atas"],
        answer_index := some 0 } := by
  have hr : Reachable (some seededDB) := by
    have h0 : Reachable (ensure_seed_data (some emptyDB)) :=
      Reachable.seed Reachable.empty
    rw [show ensure_seed_data (some emptyDB) = some seededDB from by decide] at h0
    exact h0
  exact (quiz_answer_index_invariant (some seededDB) hr).1 seededDB rfl _
    (by decide)

/-- C10: `set_progress` touches only the `completed_lessons` field of the
targeted progress record.  The five other collections are returned
unchanged; every pre-existing progress document keeps its position, its key
fields and its `updated_at` (which `set_progress` never writes), and every
document not matching the pair is unchanged entirely; when no document
matches, the only change is the appended upserted document, whose
`updated_at` is absent. -/
theorem set_progress_frame (d : DB) (ue ms : String) (lessons : List Int) :
    ∃ d', set_progress (some d) ue ms lessons = (true, some d')
      ∧ d'.gesture = d.gesture ∧ d'.module = d.module
      ∧ d'.quizquestion = d.quizquestion ∧ d'.favorite = d.favorite
      ∧ d'.user = d.user
      ∧ List.Forall₂ (progressFrame ue ms) d.progress
          (d'.progress.take d.progress.length)
      ∧ ((∀ p ∈ d.progress, progMatches ue ms p = false) →
          d'.progress = d.progress ++ [upsertedProgress ue ms lessons]) := by
  by_cases ha : d.progress.any (progMatches ue ms) = true
  · refine ⟨{ d with progress := update_one_progress d.progress ue ms lessons },
      by simp [set_progress, ha], rfl, rfl, rfl, rfl, rfl, ?_, ?_⟩
    · show List.Forall₂ (progressFrame ue ms) d.progress
        ((update_one_progress d.progress ue ms lessons).take d.progress.length)
      rw [show d.progress.length =
          (update_one_progress d.progress ue ms lessons).length from
        (update_one_progress_length d.progress ue ms lessons).symm]
      rw [List.take_length]
      exact update_one_progress_forall2 d.progress ue ms lessons
    · intro hall
      obtain ⟨x, hx, hpx⟩ := List.any_eq_true.1 ha
      rw [hall x hx] at hpx
      cases hpx
  · have ha' : d.progress.any (progMatches ue ms) = false := by simpa using ha
    refine ⟨{ d with
        progress := d.progress ++ [upsertedProgress ue ms lessons] },
      by simp [set_progress, ha'], rfl, rfl, rfl, rfl, rfl, ?_, fun _ => rfl⟩
    show List.Forall₂ (progressFrame ue ms) d.progress
      ((d.progress ++ [upsertedProgress ue ms lessons]).take d.progress.length)
    rw [List.take_left]
    exact List.forall₂_same.2 fun x _ => ⟨rfl, rfl, rfl, fun _ => rfl⟩

/-- A concrete store for exercising the `set_progress` frame property: one
progress record matching the targeted pair (with a set `updated_at`) and one
record of another user. -/
def frameWitnessDB : DB :=
  { emptyDB with progress :=
    [ { user_email := "u@example.net", module_slug := "m1",
        completed_lessons := some [0, 1], updated_at := some "t0" },
      { user_email := "v@example.net", module_slug := "m1",
        completed_lessons := some [5], updated_at := none } ] }

/-- Witness for C10: updating the matching record of `frameWitnessDB`. -/
theorem set_progress_frame_witness :
    ∃ d', set_progress (some frameWitnessDB) "u@example.net" "m1" [2] =
        (true, some d')
      ∧ d'.gesture = frameWitnessDB.gesture
      ∧ d'.module = frameWitnessDB.module
      ∧ d'.quizquestion = frameWitnessDB.quizquestion
      ∧ d'.favorite = frameWitnessDB.favorite
      ∧ d'.user = frameWitnessDB.user
      ∧ List.Forall₂ (progressFrame "u@example.net" "m1")
          frameWitnessDB.progress
          (d'.progress.take frameWitnessDB.progress.length)
      ∧ ((∀ p ∈ frameWitnessDB.progress,
            progMatches "u@example.net" "m1" p = false) →
          d'.progress = frameWitnessDB.progress ++
            [upsertedProgress "u@example.net" "m1" [2]]) :=
  set_progress_frame frameWitnessDB "u@example.net" "m1" [2]

end SignifyLearn
